/-
Verification of the pdf-list-templates service.

Shallow embedding of the two source modules:
  * `template_list_service.py` — `list_pdf_templates`, listing PDF template
    names either from an S3 bucket (for sources of the form `s3://…`) or from
    a local directory.
  * `list_templates_function.py` — `lambda_handler`, wrapping the listing in
    an HTTP-shaped response envelope.

Python strings are modelled as Lean `String`; the Python string operations
used by the source (`str.split('/')`, `str.endswith`, `str.startswith`,
`'/'.join`, `os.path.join`) are modelled explicitly below.  The external
effects (the S3 `list_objects_v2` call and `os.listdir`) are modelled as an
explicit `World` of fallible functions; a Python exception is modelled by its
string representation (`str(e)`), which is all the source ever inspects.
-/

import Mathlib

set_option linter.unusedVariables false

/-! ## Python string primitives -/

/-- Model of Python `str.split(sep)` on character lists: splits at every
occurrence of `sep`, keeping empty segments (so the result is never empty). -/
def splitChars (sep : Char) : List Char → List Char → List (List Char)
  | [], acc => [acc.reverse]
  | c :: cs, acc =>
    if c = sep then acc.reverse :: splitChars sep cs []
    else splitChars sep cs (c :: acc)

/-- Python `s.split(sep)` for a one-character separator, on `String`. -/
def pySplit (sep : Char) (s : String) : List String :=
  (splitChars sep s.data []).map fun l => ⟨l⟩

/-- Python `s.endswith(suf)` (case-sensitive, exact character match). -/
def pyEndsWith (s suf : String) : Bool :=
  suf.data.isSuffixOf s.data

/-- Python `s.startswith(pre)`. -/
def pyStartsWith (s p : String) : Bool :=
  p.data.isPrefixOf s.data

/-- Python `sep.join(parts)`. -/
def pyJoin (sep : String) (parts : List String) : String :=
  String.intercalate sep parts

/-- Python `os.path.join(a, b)` (POSIX semantics for two components): an
absolute second component replaces the first; otherwise the components are
joined with a `/` unless the first already ends with one or is empty. -/
def osPathJoin (a b : String) : String :=
  if pyStartsWith b "/" then b
  else if a = "" ∨ pyEndsWith a "/" then a ++ b
  else a ++ "/" ++ b

/-! ## Model of Python `json.dumps` (default options: `ensure_ascii=True`,
separators `", "` and `": "`), restricted to the shapes the source
serialises: strings, lists of strings, and the two fixed two-key objects. -/

/-- Lower-case hexadecimal digit. -/
def hexDigit (n : Nat) : Char :=
  if n < 10 then Char.ofNat (48 + n) else Char.ofNat (87 + n)

/-- A `\uXXXX` escape for a code unit. -/
def uEscape (n : Nat) : List Char :=
  ['\\', 'u', hexDigit (n / 4096 % 16), hexDigit (n / 256 % 16),
   hexDigit (n / 16 % 16), hexDigit (n % 16)]

/-- How `json.dumps` renders one character of a string (with the default
`ensure_ascii=True`): short escapes for the usual control characters, `\uXXXX`
for other control and all non-ASCII characters (a surrogate pair beyond the
basic multilingual plane), the character itself otherwise. -/
def jsonEscapeChar (c : Char) : List Char :=
  if c = '"' then ['\\', '"']
  else if c = '\\' then ['\\', '\\']
  else if c = Char.ofNat 8 then ['\\', 'b']
  else if c = Char.ofNat 9 then ['\\', 't']
  else if c = Char.ofNat 10 then ['\\', 'n']
  else if c = Char.ofNat 12 then ['\\', 'f']
  else if c = Char.ofNat 13 then ['\\', 'r']
  else if c.toNat < 32 then uEscape c.toNat
  else if c.toNat < 127 then [c]
  else if c.toNat < 65536 then uEscape c.toNat
  else uEscape (55296 + (c.toNat - 65536) / 1024) ++ uEscape (56320 + (c.toNat - 65536) % 1024)

/-- `json.dumps` of a Python string. -/
def jsonDumpsStr (s : String) : String :=
  ⟨'"' :: (s.data.map jsonEscapeChar).flatten ++ ['"']⟩

/-- `json.dumps` of a list of strings. -/
def jsonDumpsStrList (l : List String) : String :=
  "[" ++ pyJoin ", " (l.map jsonDumpsStr) ++ "]"

/-- `json.dumps({'templates': templates})` as built on the success path of
`lambda_handler`. -/
def jsonDumpsTemplates (templates : List String) : String :=
  "\x7b" ++ jsonDumpsStr "templates" ++ ": " ++ jsonDumpsStrList templates ++ "\x7d"

/-- `json.dumps({'message': msg, 'error': err})` as built on the failure path
of `lambda_handler`. -/
def jsonDumpsMessageError (msg err : String) : String :=
  "\x7b" ++ jsonDumpsStr "message" ++ ": " ++ jsonDumpsStr msg ++ ", " ++
    jsonDumpsStr "error" ++ ": " ++ jsonDumpsStr err ++ "\x7d"

/-! ## The external world -/

deriving instance DecidableEq for Except

/-- A Python exception, modelled by its string representation `str(e)` — the
only thing the source ever extracts from one. -/
abbrev Err := String

/-- One entry of the `Contents` of an S3 `list_objects_v2` response; the
source reads only the `Key` field. -/
structure S3Object where
  key : String
deriving DecidableEq

/-- An S3 `list_objects_v2` response: the `Contents` field is absent when the
listing matches no object (the source reads it with `response.get('Contents',
[])`). -/
structure S3Response where
  contents : Option (List S3Object)
deriving DecidableEq

/-- The external collaborators of the service: the S3 client's
`list_objects_v2(Bucket=…, Prefix=…)` call and `os.listdir`, each either
returning a value or raising. -/
structure World where
  listObjectsV2 : String → String → Except Err S3Response
  listdir : String → Except Err (List String)

/-! ## `template_list_service.list_pdf_templates` -/

/-- Shallow embedding of `list_pdf_templates(bucket_or_path, prefix='pdf_templates/')`
from `template_list_service.py`.  For an `s3://…` source it re-derives the
bucket (`split('/')[2]`) and overwrites the `prefix` parameter with the rest
of the path (`'/'.join(split('/')[3:])`), lists the bucket and keeps the final
path segment of every key ending in `.pdf`; the `try/except` re-raises the
original exception (`raise e`).  Otherwise it lists the directory
`os.path.join(bucket_or_path, prefix)` and keeps the entries ending in
`.pdf`; an `os.listdir` failure propagates (there is no local guard). -/
def list_pdf_templates (w : World) (bucket_or_path : String)
    (pfx : String := "pdf_templates/") : Except Err (List String) :=
  if pyStartsWith bucket_or_path "s3://" then
    let bucket_name := (pySplit '/' bucket_or_path).getD 2 ""
    let pfx := pyJoin "/" ((pySplit '/' bucket_or_path).drop 3)
    match w.listObjectsV2 bucket_name pfx with
    | Except.ok response =>
      Except.ok ((((response.contents).getD []).filter fun o => pyEndsWith o.key ".pdf").map
        fun o => (pySplit '/' o.key).getLastD "")
    | Except.error e => Except.error e
  else
    match w.listdir (osPathJoin bucket_or_path pfx) with
    | Except.ok files => Except.ok (files.filter fun f => pyEndsWith f ".pdf")
    | Except.error e => Except.error e

/-! ## `list_templates_function.lambda_handler` -/

/-- A JSON value: the model of a Lambda invocation event, which arrives as
deserialised JSON and is therefore always serialisable for the handler's
`json.dumps(event)` logging call. -/
inductive JVal where
  | null : JVal
  | bool : Bool → JVal
  | num : Int → JVal
  | str : String → JVal
  | arr : List JVal → JVal
  | obj : List (String × JVal) → JVal

/-- The HTTP-shaped response envelope returned by `lambda_handler`. -/
structure Envelope where
  statusCode : Nat
  body : String
  headers : List (String × String)
deriving DecidableEq

/-- The hardcoded source descriptor of the deployed handler. -/
def deployedBucket : String :=
  "s3://aws-sam-cli-managed-default-samclisourcebucket-kdvjqzoec6pg"

/-- Shallow embedding of `lambda_handler(event, context)` from
`list_templates_function.py`: calls `list_pdf_templates` on the hardcoded
bucket string and the prefix `'pdf_templates/'`, returning a 200 envelope
with the templates serialised under key `templates`; any exception is caught
and converted into a 500 envelope carrying `'Internal server error'` and
`str(e)`.  The event and context are only logged, never read. -/
def lambda_handler (w : World) (event : JVal) (context : JVal) : Envelope :=
  let bucket_name := deployedBucket
  let pfx := "pdf_templates/"
  match list_pdf_templates w bucket_name pfx with
  | Except.ok templates =>
    { statusCode := 200
      body := jsonDumpsTemplates templates
      headers := [("Content-Type", "application/json")] }
  | Except.error e =>
    { statusCode := 500
      body := jsonDumpsMessageError "Internal server error" e
      headers := [("Content-Type", "application/json")] }

example :
    pySplit '/' "s3://my-bucket/pdf_templates/" =
      ["s3:", "", "my-bucket", "pdf_templates", ""] := by decide

example : jsonDumpsTemplates [] = "\x7b\"templates\": []\x7d" := by decide

example :
    jsonDumpsTemplates ["a.pdf", "b.pdf"] =
      "\x7b\"templates\": [\"a.pdf\", \"b.pdf\"]\x7d" := by decide

/-! ## Helper lemmas about the string primitives -/

/-- `splitChars` never returns the empty list (Python's `str.split` always
returns at least one segment). -/
theorem splitChars_ne_nil (sep : Char) : ∀ (cs acc : List Char), splitChars sep cs acc ≠ [] := by
  intro cs
  induction cs with
  | nil => intro acc; simp [splitChars]
  | cons c cs ih =>
    intro acc
    rw [splitChars]
    by_cases hc : c = sep
    · simp [hc]
    · simpa [hc] using ih (c :: acc)

/-- The default of `getLastD` is irrelevant on a nonempty list. -/
theorem getLastD_irrel {α : Type} (l : List α) (h : l ≠ []) (d d' : α) :
    l.getLastD d = l.getLastD d' := by
  cases l with
  | nil => exact absurd rfl h
  | cons a l => simp only [List.getLastD_cons]

/-- `getLastD` commutes with `map` when the default is also mapped. -/
theorem getLastD_map {α β : Type} (f : α → β) :
    ∀ (l : List α) (d : α), (l.map f).getLastD (f d) = f (l.getLastD d) := by
  intro l
  induction l with
  | nil => intro d; rfl
  | cons a l ih =>
    intro d
    simp only [List.map_cons, List.getLastD_cons]
    exact ih a

/-- A suffix avoiding an element sitting in the middle of a list is a suffix
of the part after that element. -/
theorem suffix_of_suffix_append_cons {α : Type} {s l r : List α} {x : α}
    (hx : x ∉ s) (h : s <:+ l ++ x :: r) : s <:+ r := by
  rcases List.suffix_or_suffix_of_suffix h (List.suffix_append l (x :: r)) with h1 | h1
  · rcases List.suffix_cons_iff.mp h1 with h2 | h2
    · exact absurd (h2 ▸ List.mem_cons_self x r) hx
    · exact h2
  · exact absurd (h1.subset (List.mem_cons_self x r)) hx

/-- A suffix of the input avoiding the separator is a suffix of the last
segment produced by `splitChars`. -/
theorem suffix_getLastD_splitChars (sep : Char) (suf : List Char) (hsep : sep ∉ suf) :
    ∀ (cs acc : List Char), suf <:+ acc.reverse ++ cs →
      suf <:+ (splitChars sep cs acc).getLastD [] := by
  intro cs
  induction cs with
  | nil =>
    intro acc h
    simpa [splitChars] using h
  | cons c cs ih =>
    intro acc h
    rw [splitChars]
    by_cases hc : c = sep
    · subst hc
      rw [if_pos rfl, List.getLastD_cons,
        getLastD_irrel _ (splitChars_ne_nil c cs []) acc.reverse []]
      exact ih [] (by simpa using suffix_of_suffix_append_cons hsep h)
    · rw [if_neg hc]
      exact ih (c :: acc) (by simpa [List.append_assoc] using h)

/-- If a key ends in `.pdf` then so does its final path segment
(`key.split('/')[-1]`): the four suffix characters contain no `/`. -/
theorem lastSegment_endsWith_pdf (k : String) (h : pyEndsWith k ".pdf" = true) :
    pyEndsWith ((pySplit '/' k).getLastD "") ".pdf" = true := by
  have hsuf : ".pdf".data <:+ k.data := List.isSuffixOf_iff_suffix.mp h
  have hmain : ".pdf".data <:+ (splitChars '/' k.data []).getLastD [] :=
    suffix_getLastD_splitChars '/' ".pdf".data (by decide) k.data [] (by simpa using hsuf)
  have hmap : (pySplit '/' k).getLastD "" = ⟨(splitChars '/' k.data []).getLastD []⟩ := by
    unfold pySplit
    exact getLastD_map (fun l => (⟨l⟩ : String)) (splitChars '/' k.data []) []
  rw [hmap]
  exact List.isSuffixOf_iff_suffix.mpr hmain

/-! ## Concrete worlds for witnesses -/

/-- A world in which every external call fails. -/
def wFail : World where
  listObjectsV2 := fun _ _ => Except.error "AccessDenied"
  listdir := fun _ => Except.error "FileNotFoundError"

/-- A world in which every S3 listing succeeds with an absent `Contents`. -/
def wEmpty : World where
  listObjectsV2 := fun _ _ => Except.ok ⟨none⟩
  listdir := fun _ => Except.error "FileNotFoundError"

/-- A world holding two `.pdf` keys under `tpl` in `my-bucket`. -/
def wS3 : World where
  listObjectsV2 := fun b p =>
    if b = "my-bucket" ∧ p = "tpl" then Except.ok ⟨some [⟨"tpl/a.pdf"⟩, ⟨"tpl/sub/b.pdf"⟩]⟩
    else Except.error "NoSuchBucket"
  listdir := fun _ => Except.error "FileNotFoundError"

/-- A world in which the deployed bucket holds one `.pdf` and one `.png` key
at its root (the listing call the deployed handler actually makes uses the
empty prefix). -/
def wDeployed : World where
  listObjectsV2 := fun b p =>
    if b = "aws-sam-cli-managed-default-samclisourcebucket-kdvjqzoec6pg" ∧ p = "" then
      Except.ok ⟨some [⟨"pdf_templates/x.pdf"⟩, ⟨"logo.png"⟩]⟩
    else Except.error "NoSuchBucket"
  listdir := fun _ => Except.error "FileNotFoundError"

/-- A world with a local directory `templates/sub` holding `a.pdf`, `b.txt`
and `c.PDF`. -/
def wLocal : World where
  listObjectsV2 := fun _ _ => Except.error "AccessDenied"
  listdir := fun p =>
    if p = "templates/sub" then Except.ok ["a.pdf", "b.txt", "c.PDF"]
    else Except.error "FileNotFoundError"

/-- A world exercising the second parameter of `list_pdf_templates` with a
suffix-looking value: the directory `d/.txt` holds `a.txt` and `b.pdf`. -/
def wTxt : World where
  listObjectsV2 := fun _ _ => Except.error "AccessDenied"
  listdir := fun p =>
    if p = "d/.txt" then Except.ok ["a.txt", "b.pdf"]
    else Except.error "FileNotFoundError"

/-! ## Claims about `lambda_handler` -/

/-- C1: for every event and every behaviour of the listing provider,
`lambda_handler` returns an envelope (status 200 or 500) and never raises;
when the listing call it makes propagates a failure `e`, the envelope has
status 500 and body `json.dumps({'message': 'Internal server error',
'error': str(e)})`. -/
theorem handler_returns_envelope_and_500_on_failure :
    (∀ (w : World) (ev ctx : JVal),
        (lambda_handler w ev ctx).statusCode = 200 ∨ (lambda_handler w ev ctx).statusCode = 500)
    ∧ ∀ (w : World) (ev ctx : JVal) (e : Err),
        list_pdf_templates w deployedBucket "pdf_templates/" = Except.error e →
        lambda_handler w ev ctx =
          ⟨500, jsonDumpsMessageError "Internal server error" e,
            [("Content-Type", "application/json")]⟩ := by
  constructor
  · intro w ev ctx
    cases h : list_pdf_templates w deployedBucket "pdf_templates/" with
    | ok templates => left; simp [lambda_handler, h]
    | error e => right; simp [lambda_handler, h]
  · intro w ev ctx e h
    simp [lambda_handler, h]

/-- Witness for C1: in the all-failing world the handler returns the concrete
500 envelope. -/
theorem handler_returns_envelope_and_500_on_failure_witness :
    lambda_handler wFail JVal.null JVal.null =
      ⟨500, jsonDumpsMessageError "Internal server error" "AccessDenied",
        [("Content-Type", "application/json")]⟩ :=
  handler_returns_envelope_and_500_on_failure.2 wFail JVal.null JVal.null "AccessDenied"
    (by decide)

/-- C2: when the listing call made by the handler returns a list `L`, the
envelope has status 200 and body `json.dumps({'templates': L})`; in both
branches the headers carry `Content-Type: application/json`. -/
theorem handler_success_envelope :
    (∀ (w : World) (ev ctx : JVal) (L : List String),
        list_pdf_templates w deployedBucket "pdf_templates/" = Except.ok L →
        lambda_handler w ev ctx =
          ⟨200, jsonDumpsTemplates L, [("Content-Type", "application/json")]⟩)
    ∧ ∀ (w : World) (ev ctx : JVal),
        (lambda_handler w ev ctx).headers = [("Content-Type", "application/json")] := by
  constructor
  · intro w ev ctx L h
    simp [lambda_handler, h]
  · intro w ev ctx
    cases h : list_pdf_templates w deployedBucket "pdf_templates/" with
    | ok templates => simp [lambda_handler, h]
    | error e => simp [lambda_handler, h]

/-- Witness for C2: in the world where the deployed bucket holds `x.pdf` and
`logo.png`, the handler returns the concrete 200 envelope. -/
theorem handler_success_envelope_witness :
    lambda_handler wDeployed JVal.null JVal.null =
      ⟨200, "\x7b\"templates\": [\"x.pdf\"]\x7d", [("Content-Type", "application/json")]⟩ :=
  (handler_success_envelope.1 wDeployed JVal.null JVal.null ["x.pdf"] (by decide)).trans
    (by decide)

/-- C9: the handler's response does not depend on the event (or context): any
two invocations against the same world yield identical envelopes. -/
theorem handler_independent_of_event (w : World) (e1 c1 e2 c2 : JVal) :
    lambda_handler w e1 c1 = lambda_handler w e2 c2 := rfl

/-! ## Claims about `list_pdf_templates` -/

/-- C3: for an `s3://` source whose listing returns only `.pdf` keys, the
returned list is exactly the final path segment of each returned key, in
order, one entry per key. -/
theorem remote_all_pdf_keys_map_to_segments (w : World) (src p : String) (resp : S3Response)
    (hs : pyStartsWith src "s3://" = true)
    (hw : w.listObjectsV2 ((pySplit '/' src).getD 2 "")
        (pyJoin "/" ((pySplit '/' src).drop 3)) = Except.ok resp)
    (hall : ∀ o ∈ (resp.contents).getD [], pyEndsWith o.key ".pdf" = true) :
    list_pdf_templates w src p =
      Except.ok (((resp.contents).getD []).map fun o => (pySplit '/' o.key).getLastD "") := by
  simp only [list_pdf_templates, hs, if_true, hw]
  rw [List.filter_eq_self.mpr hall]

/-- Witness for C3: the two-key world yields exactly the two segments. -/
theorem remote_all_pdf_keys_map_to_segments_witness :
    list_pdf_templates wS3 "s3://my-bucket/tpl" "x" = Except.ok ["a.pdf", "b.pdf"] :=
  (remote_all_pdf_keys_map_to_segments wS3 "s3://my-bucket/tpl" "x"
    ⟨some [⟨"tpl/a.pdf"⟩, ⟨"tpl/sub/b.pdf"⟩]⟩ (by decide) (by decide) (by decide)).trans
    (by decide)

/-- C4: every entry in any successful result of `list_pdf_templates` ends in
the exact case-sensitive string `.pdf` (so a key or directory entry not
ending in `.pdf` never appears, in either mode); and the local directory
holding exactly `a.pdf`, `b.txt`, `c.PDF` yields `["a.pdf"]`. -/
theorem results_end_in_pdf :
    (∀ (w : World) (src p : String) (res : List String) (x : String),
        list_pdf_templates w src p = Except.ok res → x ∈ res →
        pyEndsWith x ".pdf" = true)
    ∧ list_pdf_templates wLocal "templates" "sub" = Except.ok ["a.pdf"] := by
  constructor
  · intro w src p res x h hx
    simp only [list_pdf_templates] at h
    split at h
    · split at h
      · rename_i response heq
        rw [Except.ok.injEq] at h
        subst h
        rcases List.mem_map.mp hx with ⟨o, ho, rfl⟩
        exact lastSegment_endsWith_pdf o.key (List.mem_filter.mp ho).2
      · exact absurd h (by simp)
    · split at h
      · rename_i files heq
        rw [Except.ok.injEq] at h
        subst h
        exact (List.mem_filter.mp hx).2
      · exact absurd h (by simp)
  · decide

/-- Witness for C4: the general part applied to the entry `a.pdf` of the
local result. -/
theorem results_end_in_pdf_witness : pyEndsWith "a.pdf" ".pdf" = true :=
  results_end_in_pdf.1 wLocal "templates" "sub" ["a.pdf"] "a.pdf" (by decide) (by decide)

/-- C5: an `s3://` listing whose response has no `Contents` yields the empty
list (not an error), and when the deployed handler's own listing call comes
back without `Contents` the handler returns status 200 with an empty
`templates` list. -/
theorem empty_listing_gives_empty_and_200 :
    (∀ (w : World) (src p : String),
        pyStartsWith src "s3://" = true →
        w.listObjectsV2 ((pySplit '/' src).getD 2 "")
            (pyJoin "/" ((pySplit '/' src).drop 3)) = Except.ok ⟨none⟩ →
        list_pdf_templates w src p = Except.ok [])
    ∧ ∀ (w : World) (ev ctx : JVal),
        w.listObjectsV2 "aws-sam-cli-managed-default-samclisourcebucket-kdvjqzoec6pg" ""
          = Except.ok ⟨none⟩ →
        lambda_handler w ev ctx =
          ⟨200, "\x7b\"templates\": []\x7d", [("Content-Type", "application/json")]⟩ := by
  have hgen : ∀ (w : World) (src p : String),
      pyStartsWith src "s3://" = true →
      w.listObjectsV2 ((pySplit '/' src).getD 2 "")
          (pyJoin "/" ((pySplit '/' src).drop 3)) = Except.ok ⟨none⟩ →
      list_pdf_templates w src p = Except.ok [] := by
    intro w src p hs hw
    simp only [list_pdf_templates, hs, if_true, hw]
    decide
  refine ⟨hgen, ?_⟩
  intro w ev ctx hw
  have hcall : list_pdf_templates w deployedBucket "pdf_templates/" = Except.ok [] := by
    refine hgen w deployedBucket "pdf_templates/" (by decide) ?_
    have hb : (pySplit '/' deployedBucket).getD 2 ""
        = "aws-sam-cli-managed-default-samclisourcebucket-kdvjqzoec6pg" := by decide
    have hp : pyJoin "/" ((pySplit '/' deployedBucket).drop 3) = "" := by decide
    rw [hb, hp]
    exact hw
  simp [lambda_handler, hcall]
  decide

/-- Witness for C5: in the world answering every listing with an absent
`Contents`, the handler returns the empty 200 envelope. -/
theorem empty_listing_gives_empty_and_200_witness :
    lambda_handler wEmpty JVal.null JVal.null =
      ⟨200, "\x7b\"templates\": []\x7d", [("Content-Type", "application/json")]⟩ :=
  empty_listing_gives_empty_and_200.2 wEmpty JVal.null JVal.null (by decide)

/-- A world holding one key under `pdf_templates/` in `my-bucket`. -/
def wParse : World where
  listObjectsV2 := fun b p =>
    if b = "my-bucket" ∧ p = "pdf_templates/" then Except.ok ⟨some [⟨"pdf_templates/t.pdf"⟩]⟩
    else Except.error "NoSuchBucket"
  listdir := fun _ => Except.error "FileNotFoundError"

/-- C6: `"s3://my-bucket/pdf_templates/"` parses to bucket `"my-bucket"` and
listing path `"pdf_templates/"`; in general the bucket is the first path
segment after the scheme and the listing path is the remaining path; and the
listing call made for that concrete source is exactly
`list_objects_v2(Bucket='my-bucket', Prefix='pdf_templates/')`. -/
theorem s3_source_parsing :
    ((pySplit '/' "s3://my-bucket/pdf_templates/").getD 2 "" = "my-bucket"
      ∧ pyJoin "/" ((pySplit '/' "s3://my-bucket/pdf_templates/").drop 3) = "pdf_templates/")
    ∧ (∀ rest : String,
        (pySplit '/' ("s3://" ++ rest)).getD 2 "" = (pySplit '/' rest).getD 0 ""
        ∧ pyJoin "/" ((pySplit '/' ("s3://" ++ rest)).drop 3)
            = pyJoin "/" ((pySplit '/' rest).drop 1))
    ∧ ∀ (w : World) (p : String) (resp : S3Response),
        w.listObjectsV2 "my-bucket" "pdf_templates/" = Except.ok resp →
        list_pdf_templates w "s3://my-bucket/pdf_templates/" p =
          Except.ok ((((resp.contents).getD []).filter fun o => pyEndsWith o.key ".pdf").map
            fun o => (pySplit '/' o.key).getLastD "") := by
  refine ⟨⟨by decide, by decide⟩, ?_, ?_⟩
  · intro rest
    have hsplit : splitChars '/' ("s3://" ++ rest).data [] =
        ['s', '3', ':'] :: [] :: splitChars '/' rest.data [] := rfl
    constructor
    · unfold pySplit
      rw [hsplit]
      rfl
    · unfold pySplit
      rw [hsplit]
      rfl
  · intro w p resp hw
    have hs : pyStartsWith "s3://my-bucket/pdf_templates/" "s3://" = true := by decide
    have hb : (pySplit '/' "s3://my-bucket/pdf_templates/").getD 2 "" = "my-bucket" := by decide
    have hp : pyJoin "/" ((pySplit '/' "s3://my-bucket/pdf_templates/").drop 3)
        = "pdf_templates/" := by decide
    simp only [list_pdf_templates, hs, if_true, hb, hp, hw]

/-- Witness for C6: the concrete listing call is answered and its one key is
stripped to its final segment. -/
theorem s3_source_parsing_witness :
    list_pdf_templates wParse "s3://my-bucket/pdf_templates/" "q" = Except.ok ["t.pdf"] :=
  (s3_source_parsing.2.2 wParse "q" ⟨some [⟨"pdf_templates/t.pdf"⟩]⟩ (by decide)).trans
    (by decide)

/-- C7: a failure raised by the object-store listing call is propagated
unchanged by `list_pdf_templates` — the caller receives the very error the
call produced, with no retry and no partial result. -/
theorem s3_failure_propagated (w : World) (src p : String) (e : Err)
    (hs : pyStartsWith src "s3://" = true)
    (hw : w.listObjectsV2 ((pySplit '/' src).getD 2 "")
        (pyJoin "/" ((pySplit '/' src).drop 3)) = Except.error e) :
    list_pdf_templates w src p = Except.error e := by
  simp only [list_pdf_templates, hs, if_true, hw]

/-- Witness for C7: the all-failing world propagates `AccessDenied`. -/
theorem s3_failure_propagated_witness :
    list_pdf_templates wFail "s3://b/x" "p" = Except.error "AccessDenied" :=
  s3_failure_propagated wFail "s3://b/x" "p" "AccessDenied" (by decide) (by decide)

/-- C8 counterexample: the second parameter of `list_pdf_templates` is not a
filter suffix.  Passing `".txt"` as that parameter over a directory holding
`a.txt` and `b.pdf` returns `["b.pdf"]`: the returned entry does not end in
the given value and the entry that does end in it is excluded. -/
theorem second_param_not_filter_suffix_cex :
    list_pdf_templates wTxt "d" ".txt" = Except.ok ["b.pdf"]
    ∧ pyEndsWith "b.pdf" ".txt" = false
    ∧ pyEndsWith "a.txt" ".txt" = true := by decide

/-- C8 amended: the second parameter is a folder path (default
`'pdf_templates/'`), and the filter suffix is fixed at `.pdf`: in local mode
the result is exactly the entries of the joined directory ending in `.pdf`,
whatever the second parameter is. -/
theorem second_param_is_path :
    (∀ (w : World) (src : String),
        list_pdf_templates w src = list_pdf_templates w src "pdf_templates/")
    ∧ ∀ (w : World) (src p : String) (files : List String),
        pyStartsWith src "s3://" = false →
        w.listdir (osPathJoin src p) = Except.ok files →
        list_pdf_templates w src p = Except.ok (files.filter fun f => pyEndsWith f ".pdf") := by
  constructor
  · intro w src
    rfl
  · intro w src p files hs hw
    simp [list_pdf_templates, hs, hw]

/-- Witness for C8 (amended): in the `.txt` directory world only `b.pdf`
survives the fixed `.pdf` filter. -/
theorem second_param_is_path_witness :
    list_pdf_templates wTxt "d" ".txt" = Except.ok (["a.txt", "b.pdf"].filter
      fun f => pyEndsWith f ".pdf") :=
  second_param_is_path.2 wTxt "d" ".txt" ["a.txt", "b.pdf"] (by decide) (by decide)

/-- C10: in remote mode the caller-supplied second parameter is ignored (the
result is the same for any two values); the deployed bucket string has no
path after the bucket name, so the derived listing path is the empty string;
consequently the deployed handler's envelope is determined by the listing of
the deployed bucket under the empty path, not under `'pdf_templates/'`. -/
theorem remote_ignores_caller_path :
    (∀ (w : World) (src p1 p2 : String), pyStartsWith src "s3://" = true →
        list_pdf_templates w src p1 = list_pdf_templates w src p2)
    ∧ pyJoin "/" ((pySplit '/' deployedBucket).drop 3) = ""
    ∧ ∀ (w : World) (ev ctx : JVal) (resp : S3Response),
        w.listObjectsV2 "aws-sam-cli-managed-default-samclisourcebucket-kdvjqzoec6pg" ""
          = Except.ok resp →
        lambda_handler w ev ctx =
          ⟨200, jsonDumpsTemplates ((((resp.contents).getD []).filter
              fun o => pyEndsWith o.key ".pdf").map fun o => (pySplit '/' o.key).getLastD ""),
            [("Content-Type", "application/json")]⟩ := by
  refine ⟨?_, by decide, ?_⟩
  · intro w src p1 p2 hs
    simp only [list_pdf_templates, hs, if_true]
  · intro w ev ctx resp hw
    have hs : pyStartsWith deployedBucket "s3://" = true := by decide
    have hb : (pySplit '/' deployedBucket).getD 2 ""
        = "aws-sam-cli-managed-default-samclisourcebucket-kdvjqzoec6pg" := by decide
    have hp : pyJoin "/" ((pySplit '/' deployedBucket).drop 3) = "" := by decide
    simp only [lambda_handler, list_pdf_templates, hs, if_true, hb, hp, hw]

/-- Witness for C10: in the world listing the deployed bucket at the empty
path, the handler reports `x.pdf` (filtering out `logo.png`). -/
theorem remote_ignores_caller_path_witness :
    lambda_handler wDeployed (JVal.str "ping") JVal.null =
      ⟨200, "\x7b\"templates\": [\"x.pdf\"]\x7d", [("Content-Type", "application/json")]⟩ :=
  (remote_ignores_caller_path.2.2 wDeployed (JVal.str "ping") JVal.null
    ⟨some [⟨"pdf_templates/x.pdf"⟩, ⟨"logo.png"⟩]⟩ (by decide)).trans (by decide)
